import Mathlib

/-!
Shallow embedding of the Task CRUD service
(`main_service/app/models.py`, `main_service/app/main.py`,
`main_service/app/database.py`) and proofs about its
validation / persistence / response contract.
-/

namespace TaskService

/-- JSON values, restricted to the scalar shapes that can appear in the
fields of a create-task request body. -/
inductive JsonValue where
  | null
  | bool (b : Bool)
  | int (n : Int)
  | str (s : String)
  deriving DecidableEq

/-- A request payload: a JSON object, i.e. a finite map from field names to
JSON values, embedded as an association list (JSON object keys are unique,
so first-match lookup is the map semantics). -/
def Payload := List (String × JsonValue)

/-- The input view (schema `TaskCreate` in `models.py`, inheriting the three
fields of `TaskBase`): `title`, optional `description`, `is_completed`. -/
structure TaskCreate where
  title : String
  description : Option String
  is_completed : Bool
  deriving DecidableEq

/-- One entry of the structured validation-error list FastAPI returns with a
422 response: a location path (e.g. `["body", "title"]`) and a message. -/
structure FieldError where
  loc : List String
  msg : String
  deriving DecidableEq

/-- The storage/output view (classes `Task` / `TaskRead` in `models.py`):
the three `TaskBase` fields plus the server-assigned integer `id`. -/
structure Task where
  id : Int
  title : String
  description : Option String
  is_completed : Bool
  deriving DecidableEq

/-- Validation of the `title` field of a payload, per the declaration
`title: str = Field(index=True, max_length=255, nullable=False)` in
`models.py`: the field is required, must be a string, and its length is
bounded by 255.  There is no minimum-length constraint in the source.
The missing-field message is the standard `Field required` asserted by the
own test of the repository, `test_validation_required_field`; the exact text of
the too-long message is not pinned down by the source and nothing below
depends on it. -/
def validateTitle (p : Payload) : Except FieldError String :=
  match p.lookup "title" with
  | none => .error ⟨["body", "title"], "Field required"⟩
  | some (.str s) =>
      if s.length ≤ 255 then .ok s
      else .error ⟨["body", "title"], "Value error, string exceeds maximum length of 255"⟩
  | some _ => .error ⟨["body", "title"], "Input should be a valid string"⟩

/-- Validation of the `description` field, per
`description: Optional[str] = Field(default=None, ...)` in `models.py`:
absent or JSON null gives `none`, a string is accepted, anything else is a
type error. -/
def validateDescription (p : Payload) : Except FieldError (Option String) :=
  match p.lookup "description" with
  | none => .ok none
  | some .null => .ok none
  | some (.str s) => .ok (some s)
  | some _ => .error ⟨["body", "description"], "Input should be a valid string"⟩

/-- Validation of the `is_completed` field, per
`is_completed: bool = Field(default=False)` in `models.py`: absent gives the
default `false`, a boolean is accepted, anything else is a type error.
The declared type is `bool`; framework-level lax coercions of other scalars
are not modelled. -/
def validateIsCompleted (p : Payload) : Except FieldError Bool :=
  match p.lookup "is_completed" with
  | none => .ok false
  | some (.bool b) => .ok b
  | some _ => .error ⟨["body", "is_completed"], "Input should be a valid boolean"⟩

/-- Collects the error of one field validator into a list. -/
def errList {α : Type} : Except FieldError α → List FieldError
  | .ok _ => []
  | .error e => [e]

/-- Validation of a whole create-task payload against the `TaskCreate`
schema, as the framework performs it before the `create_task` handler body
runs: every field is checked and the per-field errors are collected (in
field declaration order) into the structured 422 error list. -/
def validateTaskCreate (p : Payload) : Except (List FieldError) TaskCreate :=
  match validateTitle p, validateDescription p, validateIsCompleted p with
  | .ok t, .ok d, .ok c => .ok ⟨t, d, c⟩
  | t, d, c => .error (errList t ++ errList d ++ errList c)

/-- State of the `task` table together with the id generator of the database:
the stored rows and the next value of the auto-generated primary key.
`insertAttempts` counts how many times an insert (session.add + commit) has
been attempted, so that the absence of retries is expressible. -/
structure DBState where
  tasks : List Task
  nextId : Int
  insertAttempts : Nat
  deriving DecidableEq

/-- The row the database stores for an input view `v`: the three validated
fields plus the freshly assigned primary key. -/
def insertedTask (v : TaskCreate) (s : DBState) : Task :=
  ⟨s.nextId, v.title, v.description, v.is_completed⟩

/-- Body of a response of the create-task endpoint: the created task
(201), the structured field-error list (422), or a plain detail message
(500). -/
inductive CreateBody where
  | task (t : Task)
  | errors (errs : List FieldError)
  | message (detail : String)
  deriving DecidableEq

/-- An HTTP response of the create-task endpoint. -/
structure CreateResponse where
  status : Nat
  body : CreateBody
  deriving DecidableEq

/-- The create-task request path (`POST /tasks/`, handler `create_task` in
`main.py`), from raw payload to response.  `dbError` models whether the
persistence operation (session.add / session.commit) raises, and with which
message.  Behaviour per the source: the framework validates the payload
against `TaskCreate` and answers 422 with the error list on failure; the
handler body then inserts the row and answers 201 with the stored task; any
exception from persistence is caught by `except Exception`, its message is
printed to the server log, and a fixed-detail 500 is raised.  The result is
the response, the database state afterwards, and the lines logged
server-side. -/
def create_task (p : Payload) (dbError : Option String) (s : DBState) :
    CreateResponse × DBState × List String :=
  match validateTaskCreate p with
  | .error errs => (⟨422, .errors errs⟩, s, [])
  | .ok v =>
    match dbError with
    | some cause =>
        (⟨500, .message "Error interno del servidor al procesar la solicitud."⟩,
         { s with insertAttempts := s.insertAttempts + 1 },
         ["Error al crear tarea: " ++ cause])
    | none =>
        (⟨201, .task (insertedTask v s)⟩,
         { tasks := s.tasks ++ [insertedTask v s],
           nextId := s.nextId + 1,
           insertAttempts := s.insertAttempts + 1 },
         [])

/-- Body of a response of the list-tasks endpoint. -/
inductive ListBody where
  | tasks (ts : List Task)
  | message (m : String)
  deriving DecidableEq

/-- An HTTP response of the list-tasks endpoint. -/
structure ListResponse where
  status : Nat
  body : ListBody
  deriving DecidableEq

/-- The list-tasks request path (`GET /tasks/`, handler `read_tasks` in
`main.py`).  The handler body is `session.exec(select(Task)).all()` with no
exception handling: on success it answers 200 with all stored rows; if the
query raises (`dbError`), the exception propagates out of the handler and
the error middleware of the server answers a plain 500 `Internal Server Error`
carrying no detail of the cause. -/
def read_tasks (dbError : Option String) (s : DBState) : ListResponse :=
  match dbError with
  | some _ => ⟨500, .message "Internal Server Error"⟩
  | none => ⟨200, .tasks s.tasks⟩

/-- Body returned by the `health_check` handler in `main.py`: the literal
dictionary it returns. -/
def health_check : List (String × String) :=
  [("status", "ok"), ("message", "API is running!")]

/-- The health endpoint (`GET /health`): the handler declares no database
dependency and takes no input, so the response is the default framework
success status 200 with the fixed body, whatever the database state and
whether or not the database would fail. -/
def healthEndpoint (_s : DBState) (_dbError : Option String) :
    Nat × List (String × String) :=
  (200, health_check)

/-- The validity predicate exactly as claim C2 states it (spec side, for
comparison with the validation the code performs): `title` present, a string,
non-empty, and at most 255 characters; `description`, if present, a string;
`is_completed`, if present, a boolean. -/
def specValidPayloadC2 (p : Payload) : Bool :=
  (match p.lookup "title" with
   | some (.str s) => !(s == "") && decide (s.length ≤ 255)
   | _ => false) &&
  ((match p.lookup "description" with
   | none => true
   | some (.str _) => true
   | some _ => false) &&
  (match p.lookup "is_completed" with
   | none => true
   | some (.bool _) => true
   | some _ => false))

/-- Amended acceptance condition for the `title` field: present, a string,
of length at most 255 — the source imposes no minimum length, so the empty
string is accepted. -/
def titleOkAmended (p : Payload) : Bool :=
  match p.lookup "title" with
  | some (.str s) => decide (s.length ≤ 255)
  | _ => false

/-- Acceptance condition for the `description` field: absent, null, or a
string. -/
def descriptionOk (p : Payload) : Bool :=
  match p.lookup "description" with
  | none => true
  | some .null => true
  | some (.str _) => true
  | some _ => false

/-- Acceptance condition for the `is_completed` field: absent or a
boolean. -/
def isCompletedOk (p : Payload) : Bool :=
  match p.lookup "is_completed" with
  | none => true
  | some (.bool _) => true
  | some _ => false

/-- Amended validity predicate (claim C2 with the non-emptiness requirement
on `title` dropped, and null accepted where a field is optional). -/
def validPayloadAmended (p : Payload) : Bool :=
  titleOkAmended p && (descriptionOk p && isCompletedOk p)

/-- A string of length `n`, used to exercise the length boundary of
`title` (the test of the repository builds such a string as `"A" * 300`). -/
def titleOfLength (n : Nat) : String :=
  String.mk (List.replicate n 'a')

/-- The three field names the `TaskCreate` schema declares; any other key
of a payload is unknown to the schema. -/
def knownField (k : String) : Bool :=
  k == "title" || (k == "description" || k == "is_completed")

/-- Predicate on a stored task: its `title`, `description` and
`is_completed` equal those of the input view `v`, and its id is a positive
integer not among `prior` (the ids observable in earlier responses). -/
def matchesFresh (v : TaskCreate) (prior : List Int) (t : Task) : Bool :=
  decide (t.title = v.title) && (decide (t.description = v.description) &&
  (decide (t.is_completed = v.is_completed) && (decide (0 < t.id) &&
  !(prior.contains t.id))))

/-! Helper lemmas about the validators. -/

theorem validateTaskCreate_ok_iff (p : Payload) (v : TaskCreate) :
    validateTaskCreate p = .ok v ↔
      validateTitle p = .ok v.title ∧ validateDescription p = .ok v.description ∧
        validateIsCompleted p = .ok v.is_completed := by
  obtain ⟨vt, vd, vc⟩ := v
  unfold validateTaskCreate
  cases hT : validateTitle p <;> cases hD : validateDescription p <;>
    cases hC : validateIsCompleted p <;>
    simp [errList, TaskCreate.mk.injEq, and_assoc]

theorem validateTaskCreate_title_error (p : Payload) (e : FieldError)
    (hT : validateTitle p = .error e) :
    validateTaskCreate p =
      .error (e :: (errList (validateDescription p) ++
        errList (validateIsCompleted p))) := by
  unfold validateTaskCreate
  cases hD : validateDescription p <;> cases hC : validateIsCompleted p <;>
    simp [hT, errList]

theorem validateTitle_isOk (p : Payload) :
    (validateTitle p).isOk = titleOkAmended p := by
  unfold validateTitle titleOkAmended
  cases p.lookup "title" with
  | none => rfl
  | some v =>
    cases v with
    | null => rfl
    | bool b => rfl
    | int n => rfl
    | str s => by_cases h : s.length ≤ 255 <;> simp [h, Except.isOk, Except.toBool]

theorem validateDescription_isOk (p : Payload) :
    (validateDescription p).isOk = descriptionOk p := by
  unfold validateDescription descriptionOk
  cases p.lookup "description" with
  | none => rfl
  | some v => cases v <;> rfl

theorem validateIsCompleted_isOk (p : Payload) :
    (validateIsCompleted p).isOk = isCompletedOk p := by
  unfold validateIsCompleted isCompletedOk
  cases p.lookup "is_completed" with
  | none => rfl
  | some v => cases v <;> rfl

theorem validateTaskCreate_isOk (p : Payload) :
    (validateTaskCreate p).isOk =
      ((validateTitle p).isOk &&
        ((validateDescription p).isOk && (validateIsCompleted p).isOk)) := by
  unfold validateTaskCreate
  cases validateTitle p <;> cases validateDescription p <;>
    cases validateIsCompleted p <;> rfl

/-! Claim theorems. -/

/-- C8: every request to the health endpoint returns status 200 with exactly
the payload `{"status": "ok", "message": "API is running!"}`, regardless of
the database state or any database failure; the handler is a pure constant,
so it has no side effects and never fails. -/
theorem C8_health_check_invariant (s : DBState) (dbError : Option String) :
    healthEndpoint s dbError =
      (200, [("status", "ok"), ("message", "API is running!")]) := rfl

/-- C9: a list-tasks request against a database containing no rows returns
status 200 with the empty sequence, not an error. -/
theorem C9_empty_list_200 (s : DBState) (h : s.tasks = []) :
    read_tasks none s = ⟨200, ListBody.tasks []⟩ := by
  simp [read_tasks, h]

theorem C9_empty_list_200_witness :
    (DBState.mk [] 1 0).tasks = [] ∧
      read_tasks none (DBState.mk [] 1 0) = ⟨200, ListBody.tasks []⟩ :=
  ⟨rfl, C9_empty_list_200 (DBState.mk [] 1 0) rfl⟩

/-- C6: when the query of the list-tasks handler fails (database
unreachable or the query rejected), the request is answered with status 500
and a generic message; the response is the same constant for every failure
cause, so no internal detail is disclosed. -/
theorem C6_list_failure_500 (cause : String) (s : DBState) :
    read_tasks (some cause) s = ⟨500, ListBody.message "Internal Server Error"⟩ := rfl

/-- C5: for every create-task request that passes validation, a failing
persistence operation yields status 500 with the fixed generic detail
message (the same constant for every cause, so the cause is not leaked);
the cause appears only in the server-side log, exactly one insert is
attempted (no retry), and the table is unchanged. -/
theorem C5_persistence_failure_500 (p : Payload) (v : TaskCreate)
    (cause : String) (s : DBState) (hv : validateTaskCreate p = .ok v) :
    create_task p (some cause) s =
      (⟨500, CreateBody.message "Error interno del servidor al procesar la solicitud."⟩,
       { s with insertAttempts := s.insertAttempts + 1 },
       ["Error al crear tarea: " ++ cause]) := by
  simp [create_task, hv]

theorem C5_persistence_failure_500_witness :
    validateTaskCreate [("title", JsonValue.str "a")] =
        .ok ⟨"a", none, false⟩ ∧
      create_task [("title", JsonValue.str "a")] (some "connection refused")
          (DBState.mk [] 1 0) =
        (⟨500, CreateBody.message "Error interno del servidor al procesar la solicitud."⟩,
         DBState.mk [] 1 1, ["Error al crear tarea: connection refused"]) :=
  ⟨rfl, C5_persistence_failure_500 [("title", JsonValue.str "a")]
    ⟨"a", none, false⟩ "connection refused" (DBState.mk [] 1 0) rfl⟩

/-- C2, counterexample: the payload whose `title` is the empty string is
accepted by the validation the code performs (the source declares `max_length=255` but
no minimum length), while the condition of the claim requires validation to
fail on it; so validation succeeding is not equivalent to the stated
condition. -/
theorem C2_counterexample :
    (validateTaskCreate [("title", JsonValue.str "")]).isOk = true ∧
      specValidPayloadC2 [("title", JsonValue.str "")] = false :=
  ⟨rfl, rfl⟩

/-- C2, amended: validation of the create-task input succeeds if and only
if `title` is present, a string, and at most 255 characters (possibly
empty); `description`, if present, is a string or null; and `is_completed`,
if present, is a boolean. -/
theorem C2_validation_iff (p : Payload) :
    (validateTaskCreate p).isOk = validPayloadAmended p := by
  rw [validateTaskCreate_isOk, validateTitle_isOk, validateDescription_isOk,
    validateIsCompleted_isOk]
  rfl

/-- C3: a create-task request whose title has length exactly 256 fails with
status 422 (whatever the database would do), and one whose title has length
exactly 255, with all other fields absent hence valid, succeeds with status
201. -/
theorem C3_title_boundary (t255 t256 : String) (dbError : Option String)
    (s : DBState) (h255 : t255.length = 255) (h256 : t256.length = 256) :
    (create_task [("title", JsonValue.str t256)] dbError s).1.status = 422 ∧
    (create_task [("title", JsonValue.str t255)] none s).1.status = 201 := by
  constructor
  · have hx : validateTitle [("title", JsonValue.str t256)] =
        .error ⟨["body", "title"],
          "Value error, string exceeds maximum length of 255"⟩ := by
      unfold validateTitle
      simp [List.lookup, h256]
    have hV := validateTaskCreate_title_error _ _ hx
    simp [create_task, hV]
  · have hT : validateTitle [("title", JsonValue.str t255)] = .ok t255 := by
      unfold validateTitle
      simp [List.lookup, h255]
    have hV : validateTaskCreate [("title", JsonValue.str t255)] =
        .ok ⟨t255, none, false⟩ := by
      rw [validateTaskCreate_ok_iff]
      exact ⟨hT, rfl, rfl⟩
    simp [create_task, hV]

set_option maxRecDepth 4000 in
theorem C3_title_boundary_witness :
    (titleOfLength 255).length = 255 ∧ (titleOfLength 256).length = 256 ∧
    (create_task [("title", JsonValue.str (titleOfLength 256))] none
        (DBState.mk [] 1 0)).1.status = 422 ∧
    (create_task [("title", JsonValue.str (titleOfLength 255))] none
        (DBState.mk [] 1 0)).1.status = 201 := by
  have h255 : (titleOfLength 255).length = 255 := by
    simp [titleOfLength, String.length]
  have h256 : (titleOfLength 256).length = 256 := by
    simp [titleOfLength, String.length]
  have h := C3_title_boundary (titleOfLength 255) (titleOfLength 256) none
    (DBState.mk [] 1 0) h255 h256
  exact ⟨h255, h256, h.1, h.2⟩

/-- C4: every create-task request whose payload omits `title` fails with
status 422, and the structured error list contains the entry with location
`["body", "title"]` and the missing-required-field message. -/
theorem C4_missing_title_422 (p : Payload) (dbError : Option String)
    (s : DBState) (h : p.lookup "title" = none) :
    ∃ errs, (create_task p dbError s).1 = ⟨422, CreateBody.errors errs⟩ ∧
      FieldError.mk ["body", "title"] "Field required" ∈ errs := by
  have hT : validateTitle p = .error ⟨["body", "title"], "Field required"⟩ := by
    unfold validateTitle
    rw [h]
  have hV := validateTaskCreate_title_error p _ hT
  refine ⟨FieldError.mk ["body", "title"] "Field required" ::
      (errList (validateDescription p) ++ errList (validateIsCompleted p)),
    ?_, List.mem_cons_self _ _⟩
  simp [create_task, hV]

theorem C4_missing_title_422_witness :
    List.lookup "title"
        [("description", (JsonValue.str "Esto no funciona"))] = none ∧
    ∃ errs,
      (create_task [("description", (JsonValue.str "Esto no funciona"))]
          none (DBState.mk [] 1 0)).1 = ⟨422, CreateBody.errors errs⟩ ∧
        FieldError.mk ["body", "title"] "Field required" ∈ errs :=
  ⟨rfl, C4_missing_title_422
    [("description", (JsonValue.str "Esto no funciona"))] none
    (DBState.mk [] 1 0) rfl⟩

/-- C7: every create-task request that omits `is_completed` and passes
validation succeeds and stores a task whose `is_completed` is `false` (the
declared default). -/
theorem C7_default_is_completed (p : Payload) (v : TaskCreate) (s : DBState)
    (hno : p.lookup "is_completed" = none)
    (hv : validateTaskCreate p = .ok v) :
    (create_task p none s).1 = ⟨201, CreateBody.task (insertedTask v s)⟩ ∧
    (insertedTask v s).is_completed = false ∧
    insertedTask v s ∈ (create_task p none s).2.1.tasks := by
  have hC : validateIsCompleted p = .ok v.is_completed :=
    ((validateTaskCreate_ok_iff p v).mp hv).2.2
  have hfalse : v.is_completed = false := by
    simp [validateIsCompleted, hno] at hC
    exact hC
  refine ⟨by simp [create_task, hv], by simp [insertedTask, hfalse], ?_⟩
  simp [create_task, hv]

theorem C7_default_is_completed_witness :
    List.lookup "is_completed" [("title", (JsonValue.str "x"))] = none ∧
    validateTaskCreate [("title", JsonValue.str "x")] =
      .ok ⟨"x", none, false⟩ ∧
    ((create_task [("title", JsonValue.str "x")] none (DBState.mk [] 1 0)).1 =
        ⟨201, CreateBody.task
          (insertedTask ⟨"x", none, false⟩ (DBState.mk [] 1 0))⟩ ∧
      (insertedTask (⟨"x", none, false⟩ : TaskCreate)
          (DBState.mk [] 1 0)).is_completed = false ∧
      insertedTask ⟨"x", none, false⟩ (DBState.mk [] 1 0) ∈
        (create_task [("title", JsonValue.str "x")] none
          (DBState.mk [] 1 0)).2.1.tasks) :=
  ⟨rfl, rfl, C7_default_is_completed [("title", JsonValue.str "x")]
    ⟨"x", none, false⟩ (DBState.mk [] 1 0) rfl rfl⟩

theorem lookup_filter_known (p : Payload) (k : String)
    (hk : knownField k = true) :
    (p.filter fun kv => knownField kv.1).lookup k = p.lookup k := by
  induction p with
  | nil => rfl
  | cons kv rest ih =>
    obtain ⟨a, b⟩ := kv
    by_cases h : knownField a = true
    · rw [List.filter_cons_of_pos (by simpa using h)]
      simp only [List.lookup]
      rw [ih]
    · rw [List.filter_cons_of_neg (by simpa using h)]
      have hka : (k == a) = false := by
        cases hb : (k == a)
        · rfl
        · exact absurd (eq_of_beq hb ▸ hk) h
      simp only [List.lookup, hka]
      exact ih

/-- C10: unknown fields of a create-task payload are ignored: the request
behaves exactly as the same payload with the unknown fields removed — same
response, same resulting database state, same log. -/
theorem C10_unknown_fields_ignored (p : Payload) (dbError : Option String)
    (s : DBState) :
    create_task (p.filter fun kv => knownField kv.1) dbError s =
      create_task p dbError s := by
  have hT : validateTitle (p.filter fun kv => knownField kv.1) =
      validateTitle p := by
    unfold validateTitle
    rw [lookup_filter_known p "title" rfl]
  have hD : validateDescription (p.filter fun kv => knownField kv.1) =
      validateDescription p := by
    unfold validateDescription
    rw [lookup_filter_known p "description" rfl]
  have hC : validateIsCompleted (p.filter fun kv => knownField kv.1) =
      validateIsCompleted p := by
    unfold validateIsCompleted
    rw [lookup_filter_known p "is_completed" rfl]
  have hV : validateTaskCreate (p.filter fun kv => knownField kv.1) =
      validateTaskCreate p := by
    unfold validateTaskCreate
    rw [hT, hD, hC]
  unfold create_task
  rw [hV]

/-- C1: for a valid input view `v` (title non-empty, at most 255
characters), creating a task from a payload that validates to `v` succeeds
with 201, a subsequent listing returns 200 with all rows, and exactly one
listed task has the `title`, `description`, `is_completed` of `v` together
with a positive id different from every id stored before (stored ids
subsume every id observable in an earlier response, since the id of each row was
exposed by the 201 response that created it). -/
theorem C1_round_trip (p : Payload) (v : TaskCreate) (s : DBState)
    (_hne : v.title ≠ "") (_hlen : v.title.length ≤ 255)
    (hv : validateTaskCreate p = .ok v)
    (hinv : ∀ t ∈ s.tasks, 0 < t.id ∧ t.id < s.nextId)
    (hpos : 1 ≤ s.nextId) :
    (create_task p none s).1 = ⟨201, CreateBody.task (insertedTask v s)⟩ ∧
    read_tasks none (create_task p none s).2.1 =
      ⟨200, ListBody.tasks (s.tasks ++ [insertedTask v s])⟩ ∧
    (s.tasks ++ [insertedTask v s]).countP
        (matchesFresh v (s.tasks.map Task.id)) = 1 := by
  refine ⟨by simp [create_task, hv], by simp [create_task, hv, read_tasks], ?_⟩
  rw [List.countP_append]
  have h0 : s.tasks.countP (matchesFresh v (s.tasks.map Task.id)) = 0 := by
    rw [List.countP_eq_zero]
    intro t ht
    have hmem : t.id ∈ s.tasks.map Task.id := List.mem_map_of_mem Task.id ht
    simp [matchesFresh, hmem]
  have hfresh : s.nextId ∉ s.tasks.map Task.id := by
    intro hmem
    obtain ⟨t, ht, hid⟩ := List.mem_map.mp hmem
    exact (ne_of_lt (hinv t ht).2) hid
  have h1 : [insertedTask v s].countP
      (matchesFresh v (s.tasks.map Task.id)) = 1 := by
    have hm : matchesFresh v (s.tasks.map Task.id) (insertedTask v s) = true := by
      simp [matchesFresh, insertedTask, hfresh]
      omega
    simp [List.countP_cons, hm]
  rw [h0, h1]

theorem C1_round_trip_witness :
    ("Comprar leche" : String) ≠ "" ∧
    ("Comprar leche" : String).length ≤ 255 ∧
    validateTaskCreate
        [("title", JsonValue.str "Comprar leche"),
         ("description", JsonValue.str "Leche entera"),
         ("is_completed", JsonValue.bool false)] =
      .ok ⟨"Comprar leche", some "Leche entera", false⟩ ∧
    (∀ t ∈ (DBState.mk [] 1 0).tasks, 0 < t.id ∧ t.id < (DBState.mk [] 1 0).nextId) ∧
    1 ≤ (DBState.mk [] 1 0).nextId ∧
    ((create_task
          [("title", JsonValue.str "Comprar leche"),
           ("description", JsonValue.str "Leche entera"),
           ("is_completed", JsonValue.bool false)] none (DBState.mk [] 1 0)).1 =
        ⟨201, CreateBody.task
          (insertedTask ⟨"Comprar leche", some "Leche entera", false⟩
            (DBState.mk [] 1 0))⟩ ∧
      read_tasks none
          (create_task
            [("title", JsonValue.str "Comprar leche"),
             ("description", JsonValue.str "Leche entera"),
             ("is_completed", JsonValue.bool false)] none
            (DBState.mk [] 1 0)).2.1 =
        ⟨200, ListBody.tasks
          ((DBState.mk [] 1 0).tasks ++
            [insertedTask ⟨"Comprar leche", some "Leche entera", false⟩
              (DBState.mk [] 1 0)])⟩ ∧
      ((DBState.mk [] 1 0).tasks ++
          [insertedTask ⟨"Comprar leche", some "Leche entera", false⟩
            (DBState.mk [] 1 0)]).countP
          (matchesFresh ⟨"Comprar leche", some "Leche entera", false⟩
            ((DBState.mk [] 1 0).tasks.map Task.id)) = 1) :=
  ⟨by decide, by decide, rfl, by simp, by decide,
    C1_round_trip
      [("title", JsonValue.str "Comprar leche"),
       ("description", JsonValue.str "Leche entera"),
       ("is_completed", JsonValue.bool false)]
      ⟨"Comprar leche", some "Leche entera", false⟩ (DBState.mk [] 1 0)
      (by decide) (by decide) rfl (by simp) (by decide)⟩

end TaskService
